import Mathlib

/-!
Shallow embedding of the transport/session core of the rs-qq client
(files src/src/client/client.rs and src/rs-qq/src/client/api/mod.rs),
together with theorems settling the specification claims about it.

Bytes are modelled as lists of naturals, machine integers as Nat or Int
with explicit reduction modulo a power of two where the width matters.
-/

namespace RsQQ

/-- Error type of the crate (variants used by the embedded code paths;
CommandMismatch stands for the protocol error surfaced by
check_command_name, per the spec error-kind list). -/
inductive RQError where
  | Network
  | Timeout
  | CommandMismatch
  | Other (msg : String)
  deriving DecidableEq, Repr

/-- A logical packet: the fields of Packet that the embedded code reads. -/
structure Packet where
  seq_id : Nat
  command_name : String
  deriving DecidableEq, Repr

/-! ## Send pipeline: Client::send (client.rs lines 100-104)

The outbound mpsc unbounded channel is modelled by a single flag saying
whether it is closed; sending on a closed channel is the only failure. -/

/-- Client::send: encodes the packet and pushes it on the outbound
channel; on a closed channel it returns the error produced by the
map_err closure in the source. -/
def send (channelClosed : Bool) (_pkt : Packet) : Except RQError Unit :=
  if channelClosed then .error (.Other "failed to send out_pkt") else .ok ()

/-! ## Sequence allocators (client.rs lines 75-98)

Each counter is an atomic machine integer; fetch_add returns the previous
value and stores the incremented value, wrapping at the integer width.
A counter is modelled by the natural number holding its bit pattern. -/

/-- One fetch_add step: returns the previous value, stores the wrapped
increment. -/
def counterStep (w stride st : Nat) : Nat × Nat :=
  (st, (st + stride) % 2 ^ w)

/-- The list of values returned by n consecutive allocations from a
counter of width w and stride, starting at bit pattern st. -/
def allocs (w stride : Nat) : Nat → Nat → List Nat
  | 0, _ => []
  | n + 1, st => st :: allocs w stride n ((st + stride) % 2 ^ w)

/-- Client::next_seq: AtomicU16 seq_id, initial 0x3635, fetch_add 1. -/
def next_seq_allocs (n : Nat) : List Nat :=
  allocs 16 1 n 0x3635

/-- Client::next_packet_seq: AtomicI32 request_packet_request_id,
initial 1921334513, fetch_add 2. -/
def next_packet_seq_allocs (n : Nat) : List Nat :=
  allocs 32 2 n 1921334513

/-- Client::next_group_seq: AtomicI32 group_seq, random initial value
(bit pattern init), fetch_add 2. -/
def next_group_seq_allocs (init n : Nat) : List Nat :=
  allocs 32 2 n (init % 2 ^ 32)

/-- Client::next_friend_seq: AtomicI32 friend_seq, random initial value,
fetch_add 2. -/
def next_friend_seq_allocs (init n : Nat) : List Nat :=
  allocs 32 2 n (init % 2 ^ 32)

/-- Client::next_group_data_trans_seq: AtomicI32 group_data_trans_seq,
random initial value, fetch_add 2. -/
def next_group_data_trans_seq_allocs (init n : Nat) : List Nat :=
  allocs 32 2 n (init % 2 ^ 32)

/-- Client::next_highway_apply_seq: AtomicI32 highway_apply_up_seq,
random initial value, fetch_add 2. -/
def next_highway_apply_seq_allocs (init n : Nat) : List Nat :=
  allocs 32 2 n (init % 2 ^ 32)

/-! ## Heartbeat engine: Client::do_heartbeat (client.rs lines 148-172)

Each loop iteration (while online) sleeps, sends a heartbeat and observes
either a failure or a success; a success when the counter reaches 7
additionally performs register_client, whose outcome is part of the
event. The scripted event list stands for the environment; the script
ending stands for the online flag turning false. -/

/-- One scripted heartbeat iteration: the send_and_wait outcome and, for
successes, the outcome register_client would have if invoked. -/
inductive HbEvent where
  | hbFail
  | hbOk (regOk : Bool)
  deriving DecidableEq, Repr

/-- Result of running the heartbeat loop over a script: final value of
the success counter, whether the loop broke because re-registration
failed, and how many register_client calls were made. -/
structure HbResult where
  times : Nat
  regFailStop : Bool
  regAttempts : Nat
  deriving DecidableEq, Repr

/-- Client::do_heartbeat, run over a scripted list of iteration
outcomes starting from counter value t. -/
def do_heartbeat : List HbEvent → Nat → HbResult
  | [], t => ⟨t, false, 0⟩
  | .hbFail :: rest, t => do_heartbeat rest t
  | .hbOk regOk :: rest, t =>
    let t' := t + 1
    if 7 ≤ t' then
      if regOk then
        let r := do_heartbeat rest 0
        { r with regAttempts := r.regAttempts + 1 }
      else ⟨t', true, 1⟩
    else do_heartbeat rest t'

/-! ## Message sync engine: Client::sync_all_message (api/mod.rs 160-228)

The loop pulls MessageSyncResponse values from the server (sync_message),
acknowledges their messages (delete_message), updates the two cookies in
transport.sig according to msg_rsp_type, extends the accumulator and
continues with the declared sync_flag until it equals SYNC_STOP = 2.
The environment is a scripted list of per-iteration outcomes. -/

/-- Message header fields read by the delete-item builder
(head.from_uin() and friends). -/
structure MessageHead where
  from_uin : Int
  to_uin : Int
  msg_type : Int
  msg_seq : Int
  msg_uid : Int
  deriving DecidableEq, Repr

/-- A pb::msg::Message as the sync loop consumes it: the loop unwraps
m.head, so only messages carrying a head are representable here. -/
structure Message where
  head : MessageHead
  deriving DecidableEq, Repr

/-- A pb::MessageItem as built by the sync loop (remaining fields are
Default::default()). -/
structure MessageItem where
  from_uin : Int
  to_uin : Int
  msg_type : Int
  msg_seq : Int
  msg_uid : Int
  deriving DecidableEq, Repr

/-- The delete-acknowledgment items built from a response: one item per
message header, copying the five header fields. -/
def deleteItems (msgs : List Message) : List MessageItem :=
  msgs.map fun m =>
    ⟨m.head.from_uin, m.head.to_uin, m.head.msg_type, m.head.msg_seq,
      m.head.msg_uid⟩

/-- The fields of MessageSyncResponse read by sync_all_message. -/
structure MessageSyncResponse where
  msg_rsp_type : Int
  sync_cookie : Option (List Nat)
  pub_account_cookie : Option (List Nat)
  msgs : List Message
  sync_flag : Int
  deriving DecidableEq, Repr

/-- The two sync cursors held in transport.sig. -/
structure Sig where
  sync_cookie : List Nat
  pub_account_cookie : List Nat
  deriving DecidableEq, Repr

/-- The cookie-update match block of sync_all_message (api/mod.rs
197-220): each arm overwrites a cookie only when the response carries
it. -/
def updateCookies (sig : Sig) (resp : MessageSyncResponse) : Sig :=
  if resp.msg_rsp_type = 0 then
    let sig1 := match resp.sync_cookie with
      | some c => { sig with sync_cookie := c }
      | none => sig
    match resp.pub_account_cookie with
      | some c => { sig1 with pub_account_cookie := c }
      | none => sig1
  else if resp.msg_rsp_type = 1 then
    match resp.sync_cookie with
      | some c => { sig with sync_cookie := c }
      | none => sig
  else if resp.msg_rsp_type = 2 then
    match resp.pub_account_cookie with
      | some c => { sig with pub_account_cookie := c }
      | none => sig
  else sig

/-- Whether the cookie-update block performs at least one write for this
response. -/
def cursorWrites (resp : MessageSyncResponse) : Bool :=
  if resp.msg_rsp_type = 0 then
    resp.sync_cookie.isSome || resp.pub_account_cookie.isSome
  else if resp.msg_rsp_type = 1 then resp.sync_cookie.isSome
  else if resp.msg_rsp_type = 2 then resp.pub_account_cookie.isSome
  else false

/-- A scripted iteration of the sync loop: either the sync_message call
fails, or it yields a response together with the outcome delete_message
has for it. -/
inductive SyncStep where
  | syncFail
  | syncOk (resp : MessageSyncResponse) (deleteOk : Bool)
  deriving DecidableEq, Repr

/-- Observable actions of one run of the sync loop, in order: a
sync_message request carrying its sync_flag, a successful
delete_message acknowledgment for the response of iteration idx, a
cookie write for the response of iteration idx. -/
inductive SyncAction where
  | requested (flag : Int)
  | ackSent (idx : Nat)
  | cursorUpdated (idx : Nat)
  deriving DecidableEq, Repr

/-- The body of sync_all_message run over a script, starting at
sync_flag flag with cursor sig, iterations numbered from idx: yields the
final cursor, the messages accumulated from this point on, and the
action trace. An exhausted script stands for a sync_message call that
fails (the request is made, no response arrives). -/
def syncRun : List SyncStep → Int → Sig → Nat →
    Sig × List Message × List SyncAction
  | [], flag, sig, _ => (sig, [], [.requested flag])
  | .syncFail :: _, flag, sig, _ => (sig, [], [.requested flag])
  | .syncOk resp deleteOk :: rest, flag, sig, idx =>
    if deleteOk then
      let sig' := updateCookies sig resp
      let hdr : List SyncAction :=
        .requested flag :: .ackSent idx ::
          (if cursorWrites resp then [.cursorUpdated idx] else [])
      if resp.sync_flag = 2 then (sig', resp.msgs, hdr)
      else
        let r := syncRun rest resp.sync_flag sig' (idx + 1)
        (r.1, resp.msgs ++ r.2.1, hdr ++ r.2.2)
    else (sig, [], [.requested flag])

/-- Client::sync_all_message: starts at SYNC_START = 0 and always
returns Ok with the accumulated messages (every break path falls
through to Ok(msgs)). -/
def sync_all_message (script : List SyncStep) (sig : Sig) :
    Except RQError (List Message) :=
  .ok (syncRun script 0 sig 0).2.1

/-- The cursor state sync_all_message leaves behind. -/
def syncFinalSig (script : List SyncStep) (sig : Sig) : Sig :=
  (syncRun script 0 sig 0).1

/-- The action trace of a sync_all_message run. -/
def syncTrace (script : List SyncStep) (sig : Sig) : List SyncAction :=
  (syncRun script 0 sig 0).2.2

/-- The sync_flag values carried by the requests of a trace, in order. -/
def requestedFlags (tr : List SyncAction) : List Int :=
  tr.filterMap fun a =>
    match a with
    | .requested f => some f
    | _ => none

/-! ## Token persistence: gen_token / load_token (client.rs 174-202)

gen_token writes the uin as an i64 followed by nine length-prefixed byte
blocks; load_token reads them back in the same order. The byte-level
writer and reader live in crate::binary, outside the given sources, so
they are modelled from the spec: each block is a u16 length followed by
the bytes, and the account identifier is a fixed-width (64-bit,
big-endian, two's complement) integer. -/

/-- Modelled from the spec: BufMut::put_i64 writes the 8-byte big-endian
two's-complement pattern of a 64-bit integer. -/
def i64ToBytes (x : Int) : List Nat :=
  let u := (x % 2 ^ 64).toNat
  [u / 2 ^ 56 % 256, u / 2 ^ 48 % 256, u / 2 ^ 40 % 256,
    u / 2 ^ 32 % 256, u / 2 ^ 24 % 256, u / 2 ^ 16 % 256,
    u / 2 ^ 8 % 256, u % 256]

/-- Modelled from the spec: Buf::get_i64 reads 8 big-endian bytes and
sign-decodes the two's-complement pattern. -/
def bytesToI64 (bs : List Nat) : Int :=
  match bs with
  | b0 :: b1 :: b2 :: b3 :: b4 :: b5 :: b6 :: b7 :: _ =>
    let u : Nat := ((((((b0 * 256 + b1) * 256 + b2) * 256 + b3) * 256 +
      b4) * 256 + b5) * 256 + b6) * 256 + b7
    if u < 2 ^ 63 then (u : Int) else (u : Int) - 2 ^ 64
  | _ => 0

/-- Modelled from the spec: the u16 big-endian length prefix of a byte
block (BinaryWriter::write_bytes_short), truncated to 16 bits. -/
def u16be (len : Nat) : List Nat :=
  [len % 2 ^ 16 / 256, len % 2 ^ 16 % 256]

/-- Modelled from the spec: BinaryWriter::write_bytes_short appends a
u16 length prefix followed by the bytes. -/
def write_bytes_short (buf b : List Nat) : List Nat :=
  buf ++ u16be b.length ++ b

/-- Modelled from the spec: BinaryReader::read_bytes_short reads a u16
big-endian length then that many bytes; returns the block and the rest
of the buffer. -/
def read_bytes_short (buf : List Nat) : List Nat × List Nat :=
  match buf with
  | hi :: lo :: rest => ((rest.take (hi * 256 + lo)), rest.drop (hi * 256 + lo))
  | _ => ([], [])

/-- The persisted fields of the session: uin plus the nine byte blocks
written by gen_token, in source order (wt_session_ticket_key lives in
the oicq codec, the rest in transport.sig). -/
structure TokenState where
  uin : Int
  d2 : List Nat
  d2key : List Nat
  tgt : List Nat
  srm_token : List Nat
  t133 : List Nat
  encrypted_a1 : List Nat
  wt_session_ticket_key : List Nat
  out_packet_session_id : List Nat
  tgtgt_key : List Nat
  deriving DecidableEq, Repr

/-- Client::gen_token: uin as i64, then the nine blocks, each
length-prefixed, in the fixed source order. -/
def gen_token (s : TokenState) : List Nat :=
  let buf := i64ToBytes s.uin
  let buf := write_bytes_short buf s.d2
  let buf := write_bytes_short buf s.d2key
  let buf := write_bytes_short buf s.tgt
  let buf := write_bytes_short buf s.srm_token
  let buf := write_bytes_short buf s.t133
  let buf := write_bytes_short buf s.encrypted_a1
  let buf := write_bytes_short buf s.wt_session_ticket_key
  let buf := write_bytes_short buf s.out_packet_session_id
  write_bytes_short buf s.tgtgt_key

/-- Client::load_token: reads the uin and the nine blocks back in the
identical order. -/
def load_token (buf : List Nat) : TokenState :=
  let uin := bytesToI64 buf
  let p1 := read_bytes_short (buf.drop 8)
  let p2 := read_bytes_short p1.2
  let p3 := read_bytes_short p2.2
  let p4 := read_bytes_short p3.2
  let p5 := read_bytes_short p4.2
  let p6 := read_bytes_short p5.2
  let p7 := read_bytes_short p6.2
  let p8 := read_bytes_short p7.2
  let p9 := read_bytes_short p8.2
  ⟨uin, p1.1, p2.1, p3.1, p4.1, p5.1, p6.1, p7.1, p8.1, p9.1⟩

/-- All nine persisted byte blocks fit a u16 length prefix. -/
def TokenState.shortFields (s : TokenState) : Prop :=
  s.d2.length < 2 ^ 16 ∧ s.d2key.length < 2 ^ 16 ∧ s.tgt.length < 2 ^ 16 ∧
  s.srm_token.length < 2 ^ 16 ∧ s.t133.length < 2 ^ 16 ∧
  s.encrypted_a1.length < 2 ^ 16 ∧
  s.wt_session_ticket_key.length < 2 ^ 16 ∧
  s.out_packet_session_id.length < 2 ^ 16 ∧ s.tgtgt_key.length < 2 ^ 16

instance (s : TokenState) : Decidable s.shortFields := by
  unfold TokenState.shortFields; infer_instance

/-! ## Correlation subsystem: send_and_wait (client.rs 106-129) and
wait_packet (client.rs 131-146)

The two maps (packet_promises keyed by sequence id, packet_waiters keyed
by command name) are HashMaps guarded by RwLocks; a HashMap is modelled
as a function into Option. A oneshot receiver completes either with a
packet or with a channel error (its paired sender was dropped without
sending); the source calls unwrap on that result, so a channel error is
a panic, modelled as a distinguished outcome. -/

/-- HashMap::insert: binds k to v, displacing (dropping) any previous
value at k. -/
def mapInsert {α β : Type} [DecidableEq α] (m : α → Option β) (k : α)
    (v : β) : α → Option β :=
  fun x => if x = k then some v else m x

/-- HashMap::remove at key k. -/
def mapRemove {α β : Type} [DecidableEq α] (m : α → Option β) (k : α) :
    α → Option β :=
  fun x => if x = k then none else m x

/-- The empty map. -/
def mapEmpty {α β : Type} : α → Option β := fun _ => none

/-- What a caller of send_and_wait or wait_packet can observe: a packet,
an RQError, or a panic of the calling task (unwrap on a failed
receiver). -/
inductive SWOutcome where
  | ok (p : Packet)
  | err (e : RQError)
  | panicked
  deriving DecidableEq, Repr

/-- The Ok arm of send_and_wait's timeout match:
p.unwrap().check_command_name(&expect). A channel error (.error) makes
the unwrap panic; check_command_name is modelled from the spec as
surfacing a command-name mismatch as an error. -/
def awaitOutcome (r : Except Unit Packet) (expect : String) : SWOutcome :=
  match r with
  | .error _ => .panicked
  | .ok p => if p.command_name = expect then .ok p else .err .CommandMismatch

/-- The Ok arm of wait_packet's timeout match: Ok(i.unwrap()). -/
def wait_packet_await (r : Except Unit Packet) : SWOutcome :=
  match r with
  | .error _ => .panicked
  | .ok p => .ok p

/-- How the environment settles one send_and_wait call: the 15-second
timer fires first, or the receiver completes first with r. -/
inductive SWEvent where
  | timedOut
  | resolved (r : Except Unit Packet)

/-- The client state send_and_wait touches. -/
structure CorrState where
  packet_promises : Nat → Option Nat
  channelClosed : Bool

/-- Client::send_and_wait for one packet, with sid the fresh oneshot
sender: insert the promise; if the outbound channel rejects the frame,
remove the entry and return Network; otherwise await the receiver under
the 15-second timeout. On timeout the entry is removed here; on
resolution it was already removed by the inbound dispatcher
(modelled from the spec: resolve removes the entry before delivering). -/
def send_and_wait (st : CorrState) (pkt : Packet) (sid : Nat)
    (ev : SWEvent) : CorrState × SWOutcome :=
  let seq := pkt.seq_id
  let m1 := mapInsert st.packet_promises seq sid
  if st.channelClosed then
    ({ st with packet_promises := mapRemove m1 seq }, .err .Network)
  else
    match ev with
    | .timedOut => ({ st with packet_promises := mapRemove m1 seq }, .err .Timeout)
    | .resolved r =>
      ({ st with packet_promises := mapRemove m1 seq },
        awaitOutcome r pkt.command_name)

/-- Client::wait_packet for one name, with sid the fresh oneshot sender:
insert the waiter, await under the caller-supplied delay; on timeout
remove the entry and return Timeout, on resolution unwrap the result. -/
def wait_packet (w : String → Option Nat) (pkt_name : String) (sid : Nat)
    (ev : SWEvent) : (String → Option Nat) × SWOutcome :=
  let w1 := mapInsert w pkt_name sid
  match ev with
  | .timedOut => (mapRemove w1 pkt_name, .err .Timeout)
  | .resolved r => (mapRemove w1 pkt_name, wait_packet_await r)

/-- The interleaving of two send_and_wait calls sharing one sequence id,
observed at the first caller: both callers run the insert of client.rs
line 112; the second insert displaces the first sender, which is thereby
dropped, so the first receiver completes with a channel error within the
15-second window and the first caller runs the Ok arm. Returns the
promise map after both inserts and the first caller's outcome. -/
def duplicateSeqScenario (m : Nat → Option Nat) (seq sid1 sid2 : Nat)
    (expect : String) : (Nat → Option Nat) × SWOutcome :=
  let m1 := mapInsert m seq sid1
  let m2 := mapInsert m1 seq sid2
  (m2, awaitOutcome (.error ()) expect)

/-- The same interleaving for two wait_packet calls sharing one command
name. -/
def duplicateNameScenario (w : String → Option Nat) (name : String)
    (sid1 sid2 : Nat) : (String → Option Nat) × SWOutcome :=
  let w1 := mapInsert w name sid1
  let w2 := mapInsert w1 name sid2
  (w2, wait_packet_await (.error ()))

/-! ## Derived observations on sync runs, used to state the sync
claims -/

/-- A script in which every iteration succeeds end to end: one syncOk
step per response, each with a successful delete_message. -/
def allOkScript (resps : List MessageSyncResponse) : List SyncStep :=
  resps.map fun r => .syncOk r true

/-- Whether a scripted step is a successful sync_message whose
delete_message also succeeds. -/
def stepOk : SyncStep → Bool
  | .syncOk _ deleteOk => deleteOk
  | .syncFail => false

/-- Whether a scripted step's response declares a next mode other than
SYNC_STOP. -/
def stepContinues : SyncStep → Bool
  | .syncOk r _ => r.sync_flag != 2
  | .syncFail => false

/-- The messages carried by a scripted step's response. -/
def stepMsgs : SyncStep → List Message
  | .syncOk r _ => r.msgs
  | .syncFail => []

/-- Scans a trace keeping the indices of sent acknowledgments: true iff
every cursorUpdated i action is strictly preceded by an ackSent i
action. -/
def ackBefore : List SyncAction → List Nat → Bool
  | [], _ => true
  | .requested _ :: rest, seen => ackBefore rest seen
  | .ackSent i :: rest, seen => ackBefore rest (i :: seen)
  | .cursorUpdated i :: rest, seen => seen.contains i && ackBefore rest seen

/-- The declared next mode of the last response of a script, if any. -/
def lastFlag (resps : List MessageSyncResponse) : Option Int :=
  resps.getLast?.map fun r => r.sync_flag

/-- Every response before the last declares a next mode other than
SYNC_STOP. -/
def midFlagsContinue (resps : List MessageSyncResponse) : Bool :=
  resps.dropLast.all fun r => r.sync_flag != 2

/-- The concatenation of the messages of a response list, in order. -/
def responseMsgs (resps : List MessageSyncResponse) : List Message :=
  (resps.map fun r => r.msgs).flatten

/-- The declared next modes of all responses before the last. -/
def dropLastFlags (resps : List MessageSyncResponse) : List Int :=
  resps.dropLast.map fun r => r.sync_flag

/-- Every step of a script is a successful sync_message with a
successful delete_message and a next mode other than SYNC_STOP. -/
def allStepsProceed (script : List SyncStep) : Bool :=
  script.all fun s => stepOk s && stepContinues s

/-- The concatenation of the messages of a script's responses, in
order. -/
def scriptMsgs (script : List SyncStep) : List Message :=
  (script.map stepMsgs).flatten

/-! ## Theorems about the claims -/

/-- Helper: consecutive values of a wrapping counter differ by the
stride, modulo the width. -/
theorem allocs_getD_succ (w s : Nat) :
    ∀ (n st k : Nat), k + 1 < n →
      (allocs w s n st).getD (k + 1) 0 =
        ((allocs w s n st).getD k 0 + s) % 2 ^ w := by
  intro n
  induction n with
  | zero => intro st k h; omega
  | succ m ih =>
    intro st k h
    cases k with
    | zero =>
      cases m with
      | zero => omega
      | succ m' => simp [allocs]
    | succ k' =>
      have h' : k' + 1 < m := by omega
      simpa [allocs] using ih ((st + s) % 2 ^ w) k' h'

/-- Helper: n allocations yield a list of n values. -/
theorem allocs_length (w s : Nat) :
    ∀ (n st : Nat), (allocs w s n st).length = n := by
  intro n
  induction n with
  | zero => intro st; rfl
  | succ m ih => intro st; simp [allocs, ih]

/-- C9: for every sequence domain (transport seq, request id, group seq,
friend seq, data-transfer seq, upload seq) and every N, N consecutive
allocations from a fresh counter produce N values each differing from the
previous by the domain's fixed stride (1 for the transport seq, 2 for
the others), modulo wraparound of the underlying integer width. -/
theorem seq_allocations_stride (n k gi fi ti hi : Nat) (h : k + 1 < n) :
    (next_seq_allocs n).length = n ∧
    (next_packet_seq_allocs n).length = n ∧
    (next_group_seq_allocs gi n).length = n ∧
    (next_friend_seq_allocs fi n).length = n ∧
    (next_group_data_trans_seq_allocs ti n).length = n ∧
    (next_highway_apply_seq_allocs hi n).length = n ∧
    (next_seq_allocs n).getD (k + 1) 0 =
      ((next_seq_allocs n).getD k 0 + 1) % 2 ^ 16 ∧
    (next_packet_seq_allocs n).getD (k + 1) 0 =
      ((next_packet_seq_allocs n).getD k 0 + 2) % 2 ^ 32 ∧
    (next_group_seq_allocs gi n).getD (k + 1) 0 =
      ((next_group_seq_allocs gi n).getD k 0 + 2) % 2 ^ 32 ∧
    (next_friend_seq_allocs fi n).getD (k + 1) 0 =
      ((next_friend_seq_allocs fi n).getD k 0 + 2) % 2 ^ 32 ∧
    (next_group_data_trans_seq_allocs ti n).getD (k + 1) 0 =
      ((next_group_data_trans_seq_allocs ti n).getD k 0 + 2) % 2 ^ 32 ∧
    (next_highway_apply_seq_allocs hi n).getD (k + 1) 0 =
      ((next_highway_apply_seq_allocs hi n).getD k 0 + 2) % 2 ^ 32 :=
  ⟨allocs_length 16 1 n 0x3635, allocs_length 32 2 n 1921334513,
    allocs_length 32 2 n (gi % 2 ^ 32), allocs_length 32 2 n (fi % 2 ^ 32),
    allocs_length 32 2 n (ti % 2 ^ 32), allocs_length 32 2 n (hi % 2 ^ 32),
    allocs_getD_succ 16 1 n 0x3635 k h,
    allocs_getD_succ 32 2 n 1921334513 k h,
    allocs_getD_succ 32 2 n (gi % 2 ^ 32) k h,
    allocs_getD_succ 32 2 n (fi % 2 ^ 32) k h,
    allocs_getD_succ 32 2 n (ti % 2 ^ 32) k h,
    allocs_getD_succ 32 2 n (hi % 2 ^ 32) k h⟩

/-- C9 witness: the stride relation at a concrete instance (three
allocations, comparing the second against the first, with concrete
random seeds for the four randomly-seeded domains). -/
theorem seq_allocations_stride_witness :
    0 + 1 < 3 ∧
    ((next_seq_allocs 3).length = 3 ∧
      (next_packet_seq_allocs 3).length = 3 ∧
      (next_group_seq_allocs 11 3).length = 3 ∧
      (next_friend_seq_allocs 12 3).length = 3 ∧
      (next_group_data_trans_seq_allocs 13 3).length = 3 ∧
      (next_highway_apply_seq_allocs 14 3).length = 3 ∧
      (next_seq_allocs 3).getD 1 0 =
        ((next_seq_allocs 3).getD 0 0 + 1) % 2 ^ 16 ∧
      (next_packet_seq_allocs 3).getD 1 0 =
        ((next_packet_seq_allocs 3).getD 0 0 + 2) % 2 ^ 32 ∧
      (next_group_seq_allocs 11 3).getD 1 0 =
        ((next_group_seq_allocs 11 3).getD 0 0 + 2) % 2 ^ 32 ∧
      (next_friend_seq_allocs 12 3).getD 1 0 =
        ((next_friend_seq_allocs 12 3).getD 0 0 + 2) % 2 ^ 32 ∧
      (next_group_data_trans_seq_allocs 13 3).getD 1 0 =
        ((next_group_data_trans_seq_allocs 13 3).getD 0 0 + 2) % 2 ^ 32 ∧
      (next_highway_apply_seq_allocs 14 3).getD 1 0 =
        ((next_highway_apply_seq_allocs 14 3).getD 0 0 + 2) % 2 ^ 32) :=
  ⟨by decide, seq_allocations_stride 3 0 11 12 13 14 (by decide)⟩

/-- C2 counterexample: when the outbound channel is closed, send returns
Other "failed to send out_pkt", which is not the Network error the claim
names. -/
theorem send_closed_not_network :
    send true ⟨0x3635, "Heartbeat.Alive"⟩ =
      .error (.Other "failed to send out_pkt") ∧
    RQError.Other "failed to send out_pkt" ≠ RQError.Network := by
  exact ⟨rfl, by simp⟩

/-- C2 amended: for every packet, when send fails to enqueue the encoded
frame onto the outbound channel, send returns the error
Other "failed to send out_pkt" to the caller (it is send_and_wait that
maps its own enqueue failure to Network). -/
theorem send_closed_channel_error (pkt : Packet) :
    send true pkt = .error (.Other "failed to send out_pkt") := rfl

/-- C5: six consecutive successful heartbeats trigger no
re-registration; the seventh success triggers exactly one and resets the
counter to 0; a failure interleaved anywhere leaves the run unchanged
(in particular the counter is not reset); and when the triggered
re-registration fails, the loop terminates, ignoring any further
scripted iterations. -/
theorem heartbeat_counter_policy :
    do_heartbeat (List.replicate 6 (.hbOk true)) 0 = ⟨6, false, 0⟩ ∧
    do_heartbeat (List.replicate 7 (.hbOk true)) 0 = ⟨0, false, 1⟩ ∧
    (∀ pre suf t, do_heartbeat (pre ++ .hbFail :: suf) t =
      do_heartbeat (pre ++ suf) t) ∧
    (∀ rest, do_heartbeat (List.replicate 7 (.hbOk false) ++ rest) 0 =
      ⟨7, true, 1⟩) := by
  refine ⟨by decide, by decide, ?_, ?_⟩
  · intro pre
    induction pre with
    | nil => intro suf t; rfl
    | cons e pre ih =>
      intro suf t
      cases e with
      | hbFail => simpa [do_heartbeat] using ih suf t
      | hbOk regOk =>
        simp only [List.cons_append, do_heartbeat]
        split
        · cases regOk with
          | false => simp [do_heartbeat]
          | true => simp [do_heartbeat, ih suf 0]
        · exact ih suf _
  · intro rest
    simp [List.replicate, do_heartbeat]

/-- C8: when send succeeds but the sequence id receives no resolution
within the 15-second window, send_and_wait returns Timeout and no entry
for that sequence id remains in packet_promises. -/
theorem send_and_wait_timeout_cleanup (st : CorrState) (pkt : Packet)
    (sid : Nat) (h : st.channelClosed = false) :
    (send_and_wait st pkt sid .timedOut).2 = .err .Timeout ∧
    (send_and_wait st pkt sid .timedOut).1.packet_promises pkt.seq_id =
      none := by
  constructor
  · simp [send_and_wait, h]
  · simp [send_and_wait, h, mapRemove]

/-- C8 witness: concrete instance on an open channel with an empty
promise map. -/
theorem send_and_wait_timeout_cleanup_witness :
    (CorrState.mk mapEmpty false).channelClosed = false ∧
    ((send_and_wait ⟨mapEmpty, false⟩ ⟨5, "wtlogin.login"⟩ 0
        .timedOut).2 = .err .Timeout ∧
      (send_and_wait ⟨mapEmpty, false⟩ ⟨5, "wtlogin.login"⟩ 0
          .timedOut).1.packet_promises 5 = none) :=
  ⟨rfl, send_and_wait_timeout_cleanup ⟨mapEmpty, false⟩
    ⟨5, "wtlogin.login"⟩ 0 rfl⟩

/-- C10: a second registration under an already-pending key (same
sequence id in packet_promises, same command name in packet_waiters)
displaces the first entry's sender, which is dropped by the insertion;
the first caller's receiver then completes with a channel error and the
unwrap on it panics, rather than the caller receiving Timeout or any
other error value. -/
theorem duplicate_registration_panics (m : Nat → Option Nat)
    (seq sid1 sid2 : Nat) (expect : String) (w : String → Option Nat)
    (name : String) (wid1 wid2 : Nat) :
    mapInsert m seq sid1 seq = some sid1 ∧
    (duplicateSeqScenario m seq sid1 sid2 expect).1 seq = some sid2 ∧
    (duplicateSeqScenario m seq sid1 sid2 expect).2 = .panicked ∧
    (duplicateNameScenario w name wid1 wid2).1 name = some wid2 ∧
    (duplicateNameScenario w name wid1 wid2).2 = .panicked ∧
    ∀ e : RQError, SWOutcome.panicked ≠ .err e := by
  refine ⟨?_, ?_, rfl, ?_, rfl, ?_⟩
  · simp [mapInsert]
  · simp [duplicateSeqScenario, mapInsert]
  · simp [duplicateNameScenario, mapInsert]
  · intro e; simp

/-- C4: processing a response with tag 1 carrying only sync_cookie
leaves pub_account_cookie unchanged and installs the new sync_cookie;
tag 0 with both cookies replaces both; a tag outside 0, 1, 2 changes
neither; and a cookie absent from the response leaves the stored value
untouched under every tag. -/
theorem sync_cookie_update_cases (sig : Sig) (c d : List Nat)
    (msgs : List Message) (fl tag tagAny : Int)
    (sc pc : Option (List Nat)) (htag : tag < 0 ∨ 3 ≤ tag) :
    (updateCookies sig ⟨1, some c, none, msgs, fl⟩).pub_account_cookie =
      sig.pub_account_cookie ∧
    (updateCookies sig ⟨1, some c, none, msgs, fl⟩).sync_cookie = c ∧
    (updateCookies sig ⟨0, some c, some d, msgs, fl⟩).sync_cookie = c ∧
    (updateCookies sig ⟨0, some c, some d, msgs, fl⟩).pub_account_cookie =
      d ∧
    updateCookies sig ⟨tag, sc, pc, msgs, fl⟩ = sig ∧
    (updateCookies sig ⟨tagAny, none, pc, msgs, fl⟩).sync_cookie =
      sig.sync_cookie ∧
    (updateCookies sig ⟨tagAny, sc, none, msgs, fl⟩).pub_account_cookie =
      sig.pub_account_cookie := by
  have h0 : tag ≠ 0 := by omega
  have h1 : tag ≠ 1 := by omega
  have h2 : tag ≠ 2 := by omega
  refine ⟨?_, ?_, ?_, ?_, ?_, ?_, ?_⟩
  · norm_num [updateCookies]
  · norm_num [updateCookies]
  · norm_num [updateCookies]
  · norm_num [updateCookies]
  · simp [updateCookies, h0, h1, h2]
  · by_cases e0 : tagAny = 0 <;> by_cases e1 : tagAny = 1 <;>
      by_cases e2 : tagAny = 2 <;> rcases pc with _ | d0 <;>
      simp [updateCookies, e0, e1, e2]
  · by_cases e0 : tagAny = 0 <;> by_cases e1 : tagAny = 1 <;>
      by_cases e2 : tagAny = 2 <;> rcases sc with _ | c0 <;>
      simp [updateCookies, e0, e1, e2]

/-- C4 witness: the cookie-update cases at a concrete cursor, concrete
cookies, out-of-range tag 5 and tag 2 for the absent-cookie cases. -/
theorem sync_cookie_update_cases_witness :
    ((5 : Int) < 0 ∨ 3 ≤ (5 : Int)) ∧
    ((updateCookies ⟨[0], [9]⟩ ⟨1, some [1], none, [], 1⟩).pub_account_cookie
        = [9] ∧
      (updateCookies ⟨[0], [9]⟩ ⟨1, some [1], none, [], 1⟩).sync_cookie
        = [1] ∧
      (updateCookies ⟨[0], [9]⟩ ⟨0, some [1], some [2], [], 1⟩).sync_cookie
        = [1] ∧
      (updateCookies ⟨[0], [9]⟩
          ⟨0, some [1], some [2], [], 1⟩).pub_account_cookie = [2] ∧
      updateCookies ⟨[0], [9]⟩ ⟨5, some [3], some [4], [], 1⟩ =
        (⟨[0], [9]⟩ : Sig) ∧
      (updateCookies ⟨[0], [9]⟩ ⟨2, none, some [4], [], 1⟩).sync_cookie
        = [0] ∧
      (updateCookies ⟨[0], [9]⟩ ⟨2, some [3], none, [], 1⟩).pub_account_cookie
        = [9]) :=
  ⟨Or.inr (by decide),
    sync_cookie_update_cases ⟨[0], [9]⟩ [1] [2] [] 1 5 2 (some [3])
      (some [4]) (Or.inr (by decide))⟩

/-- Helper for C1: when every earlier iteration proceeds and iteration
pre.length + 1 has a failing delete_message, the accumulated messages
are exactly those of the earlier iterations. -/
theorem syncRun_deleteFail (resp : MessageSyncResponse) :
    ∀ (pre : List SyncStep) (flag : Int) (sig : Sig) (idx : Nat),
      allStepsProceed pre = true →
      (syncRun (pre ++ [.syncOk resp false]) flag sig idx).2.1 =
        scriptMsgs pre := by
  intro pre
  induction pre with
  | nil => intro flag sig idx _; rfl
  | cons s pre ih =>
    intro flag sig idx h
    rcases s with _ | ⟨r, dOk⟩
    · simp [allStepsProceed, stepOk] at h
    · simp only [allStepsProceed, List.all_cons, Bool.and_eq_true,
        stepOk, stepContinues, bne_iff_ne, ne_eq] at h
      obtain ⟨⟨hd, hc⟩, hrest⟩ := h
      subst hd
      have hrec := ih r.sync_flag (updateCookies sig r) (idx + 1) hrest
      simp [syncRun, hc, scriptMsgs, stepMsgs, hrec]

/-- C1 counterexample: a script whose single iteration syncs one
message and then fails its delete_message returns Ok with the empty
list, not the message of the failing iteration, refuting the
inclusive-of-iteration-k reading. -/
theorem sync_delete_failure_counterexample :
    sync_all_message
        [.syncOk ⟨0, none, none, [⟨⟨1, 2, 3, 4, 5⟩⟩], 1⟩ false]
        ⟨[], []⟩ = .ok [] ∧
    (Except.ok [] : Except RQError (List Message)) ≠
      .ok [⟨⟨1, 2, 3, 4, 5⟩⟩] :=
  ⟨rfl, by simp⟩

/-- C1 amended: if the deletion-acknowledgment step fails on iteration
k, the loop stops and returns Ok with the messages accumulated from
iterations 1..k-1 — excluding iteration k's own messages — and no error
is raised to the caller. -/
theorem sync_delete_failure_keeps_earlier_messages
    (pre : List SyncStep) (resp : MessageSyncResponse) (sig : Sig)
    (h : allStepsProceed pre = true) :
    sync_all_message (pre ++ [.syncOk resp false]) sig =
      .ok (scriptMsgs pre) := by
  unfold sync_all_message
  rw [syncRun_deleteFail resp pre 0 sig 0 h]

/-- C1 witness: one fully successful iteration followed by an iteration
whose delete_message fails; only the first iteration's message is
returned, inside Ok. -/
theorem sync_delete_failure_keeps_earlier_messages_witness :
    allStepsProceed [.syncOk ⟨0, none, none, [⟨⟨1, 1, 1, 1, 1⟩⟩], 1⟩ true]
      = true ∧
    sync_all_message
        ([.syncOk ⟨0, none, none, [⟨⟨1, 1, 1, 1, 1⟩⟩], 1⟩ true] ++
          [.syncOk ⟨0, none, none, [⟨⟨2, 2, 2, 2, 2⟩⟩], 1⟩ false])
        ⟨[], []⟩ = .ok [⟨⟨1, 1, 1, 1, 1⟩⟩] :=
  ⟨rfl, sync_delete_failure_keeps_earlier_messages
    [.syncOk ⟨0, none, none, [⟨⟨1, 1, 1, 1, 1⟩⟩], 1⟩ true]
    ⟨0, none, none, [⟨⟨2, 2, 2, 2, 2⟩⟩], 1⟩ ⟨[], []⟩ rfl⟩

/-- Helper for C7: the trace of any partial sync run keeps every
cursorUpdated action behind its ackSent action, for any starting
acknowledgment set. -/
theorem syncRun_ackBefore :
    ∀ (script : List SyncStep) (flag : Int) (sig : Sig) (idx : Nat)
      (seen : List Nat),
      ackBefore (syncRun script flag sig idx).2.2 seen = true := by
  intro script
  induction script with
  | nil => intro flag sig idx seen; rfl
  | cons s rest ih =>
    intro flag sig idx seen
    rcases s with _ | ⟨r, dOk⟩
    · rfl
    · cases dOk with
      | false => rfl
      | true =>
        by_cases h2 : r.sync_flag = 2
        · cases cw : cursorWrites r <;>
            simp [syncRun, h2, cw, ackBefore]
        · cases cw : cursorWrites r <;>
            simp [syncRun, h2, cw, ackBefore] <;>
            exact ih r.sync_flag (updateCookies sig r) (idx + 1)
              (idx :: seen)

/-- C7: in every run of sync_all_message, whatever the script, every
cursor update for a response is strictly preceded in the action trace by
the successful deletion acknowledgment for that same response; a
response whose acknowledgment was not sent never has its cursor update
performed. -/
theorem sync_ack_precedes_cursor_update (script : List SyncStep)
    (sig : Sig) :
    ackBefore (syncTrace script sig) [] = true :=
  syncRun_ackBefore script 0 sig 0 []

/-- Helper for C6: a fully successful partial run whose last response
declares SYNC_STOP and whose earlier responses do not, accumulates the
concatenation of all response messages and issues its requests at the
starting flag followed by each predecessor's declared next mode. -/
theorem syncRun_allOk :
    ∀ (resps : List MessageSyncResponse) (flag : Int) (sig : Sig)
      (idx : Nat),
      lastFlag resps = some 2 → midFlagsContinue resps = true →
      (syncRun (allOkScript resps) flag sig idx).2.1 = responseMsgs resps ∧
      requestedFlags (syncRun (allOkScript resps) flag sig idx).2.2 =
        flag :: dropLastFlags resps := by
  intro resps
  induction resps with
  | nil => intro flag sig idx hlast _; simp [lastFlag] at hlast
  | cons r rest ih =>
    intro flag sig idx hlast hmid
    cases rest with
    | nil =>
      have h2 : r.sync_flag = 2 := by
        simpa [lastFlag] using hlast
      cases cw : cursorWrites r <;>
        simp [allOkScript, syncRun, h2, cw, responseMsgs, requestedFlags,
          dropLastFlags, lastFlag]
    | cons r2 rest' =>
      have hlast' : lastFlag (r2 :: rest') = some 2 := by
        simpa [lastFlag, List.getLast?_cons_cons] using hlast
      have hr : r.sync_flag ≠ 2 := by
        have := hmid
        simp [midFlagsContinue, List.dropLast] at this
        exact this.1
      have hmid' : midFlagsContinue (r2 :: rest') = true := by
        have := hmid
        simp [midFlagsContinue, List.dropLast] at this ⊢
        exact this.2
      have hrec := ih r.sync_flag (updateCookies sig r) (idx + 1)
        hlast' hmid'
      have step : syncRun (.syncOk r true :: allOkScript (r2 :: rest'))
          flag sig idx =
          ((syncRun (allOkScript (r2 :: rest')) r.sync_flag
              (updateCookies sig r) (idx + 1)).1,
            r.msgs ++ (syncRun (allOkScript (r2 :: rest')) r.sync_flag
              (updateCookies sig r) (idx + 1)).2.1,
            .requested flag :: .ackSent idx ::
              ((if cursorWrites r then [.cursorUpdated idx] else []) ++
                (syncRun (allOkScript (r2 :: rest')) r.sync_flag
                  (updateCookies sig r) (idx + 1)).2.2)) := by
        simp [syncRun, hr]
      have escript : allOkScript (r :: r2 :: rest') =
          .syncOk r true :: allOkScript (r2 :: rest') := rfl
      constructor
      · rw [escript, step]
        show r.msgs ++ _ = _
        rw [hrec.1]
        simp [responseMsgs]
      · rw [escript, step]
        cases cw : cursorWrites r <;>
          simp [requestedFlags, cw, dropLastFlags, List.dropLast] <;>
          simpa [requestedFlags, dropLastFlags] using hrec.2

/-- C6: for every scripted sequence of responses in which every
iteration succeeds end to end and exactly the final response declares
next mode SYNC_STOP, sync_all_message terminates with Ok of the
concatenation of all messages across iterations in order, after issuing
its first request at mode SYNC_START = 0 and each subsequent request at
the previous response's declared next mode. -/
theorem sync_all_message_termination (resps : List MessageSyncResponse)
    (sig : Sig) (hlast : lastFlag resps = some 2)
    (hmid : midFlagsContinue resps = true) :
    sync_all_message (allOkScript resps) sig = .ok (responseMsgs resps) ∧
    requestedFlags (syncTrace (allOkScript resps) sig) =
      0 :: dropLastFlags resps := by
  have h := syncRun_allOk resps 0 sig 0 hlast hmid
  exact ⟨by simp [sync_all_message, h.1], by simpa [syncTrace] using h.2⟩

/-- C6 witness: two responses, the first declaring Continue and the
second Stop; the run returns both messages in order and requests modes
0 then 1. -/
theorem sync_all_message_termination_witness :
    lastFlag [⟨1, none, none, [⟨⟨1, 1, 1, 1, 1⟩⟩], 1⟩,
      ⟨0, none, none, [⟨⟨2, 2, 2, 2, 2⟩⟩], 2⟩] = some 2 ∧
    midFlagsContinue [⟨1, none, none, [⟨⟨1, 1, 1, 1, 1⟩⟩], 1⟩,
      ⟨0, none, none, [⟨⟨2, 2, 2, 2, 2⟩⟩], 2⟩] = true ∧
    sync_all_message (allOkScript [⟨1, none, none, [⟨⟨1, 1, 1, 1, 1⟩⟩], 1⟩,
        ⟨0, none, none, [⟨⟨2, 2, 2, 2, 2⟩⟩], 2⟩]) ⟨[], []⟩ =
      .ok [⟨⟨1, 1, 1, 1, 1⟩⟩, ⟨⟨2, 2, 2, 2, 2⟩⟩] ∧
    requestedFlags (syncTrace (allOkScript
        [⟨1, none, none, [⟨⟨1, 1, 1, 1, 1⟩⟩], 1⟩,
          ⟨0, none, none, [⟨⟨2, 2, 2, 2, 2⟩⟩], 2⟩]) ⟨[], []⟩) = [0, 1] :=
  ⟨rfl, rfl,
    (sync_all_message_termination
      [⟨1, none, none, [⟨⟨1, 1, 1, 1, 1⟩⟩], 1⟩,
        ⟨0, none, none, [⟨⟨2, 2, 2, 2, 2⟩⟩], 2⟩] ⟨[], []⟩ rfl rfl).1,
    (sync_all_message_termination
      [⟨1, none, none, [⟨⟨1, 1, 1, 1, 1⟩⟩], 1⟩,
        ⟨0, none, none, [⟨⟨2, 2, 2, 2, 2⟩⟩], 2⟩] ⟨[], []⟩ rfl rfl).2⟩

/-- Helper for C3: reading back an i64 written big-endian at the head of
a buffer recovers the integer, for any in-range value. -/
theorem bytesToI64_i64ToBytes (x : Int) (rest : List Nat)
    (h1 : -(2 ^ 63) ≤ x) (h2 : x < 2 ^ 63) :
    bytesToI64 (i64ToBytes x ++ rest) = x := by
  simp only [i64ToBytes, bytesToI64, List.cons_append]
  split <;> omega

/-- Helper for C3: the 8 bytes of the written i64 are consumed by the
reader's cursor. -/
theorem drop8_i64ToBytes (x : Int) (rest : List Nat) :
    (i64ToBytes x ++ rest).drop 8 = rest := rfl

/-- Helper for C3: reading a length-prefixed block written at the head
of a buffer recovers the block and leaves the tail, whenever the block
length fits the u16 prefix. -/
theorem read_write_bytes_short (b rest : List Nat)
    (h : b.length < 2 ^ 16) :
    read_bytes_short (u16be b.length ++ (b ++ rest)) = (b, rest) := by
  simp only [u16be, read_bytes_short, List.cons_append, List.nil_append]
  have hlen : b.length % 2 ^ 16 / 256 * 256 + b.length % 2 ^ 16 % 256 =
      b.length := by omega
  rw [hlen]
  rw [List.take_left, List.drop_left]

/-- Helper for C3: the same for the final block of the buffer. -/
theorem read_write_bytes_short_last (b : List Nat)
    (h : b.length < 2 ^ 16) :
    read_bytes_short (u16be b.length ++ b) = (b, []) := by
  have hb : u16be b.length ++ b = u16be b.length ++ (b ++ []) := by simp
  rw [hb, read_write_bytes_short b [] h]

/-- C3: for every SignatureState whose persisted fields are populated
(the uin in i64 range, every byte block fitting its u16 length prefix),
deserializing the bytes produced by serialization, load_token after
gen_token, reproduces every persisted field exactly: uin, d2, d2key,
tgt, srm_token, t133, encrypted_a1, wt_session_ticket_key,
out_packet_session_id, tgtgt_key, read back in the identical fixed
order with no checksum or version tag. -/
theorem token_roundtrip (s : TokenState)
    (h1 : -(2 ^ 63) ≤ s.uin) (h2 : s.uin < 2 ^ 63)
    (hf : s.shortFields) :
    load_token (gen_token s) = s := by
  obtain ⟨l1, l2, l3, l4, l5, l6, l7, l8, l9⟩ := hf
  simp only [gen_token, load_token, write_bytes_short, List.append_assoc]
  rw [bytesToI64_i64ToBytes s.uin _ h1 h2, drop8_i64ToBytes]
  rw [read_write_bytes_short _ _ l1]
  rw [read_write_bytes_short _ _ l2]
  rw [read_write_bytes_short _ _ l3]
  rw [read_write_bytes_short _ _ l4]
  rw [read_write_bytes_short _ _ l5]
  rw [read_write_bytes_short _ _ l6]
  rw [read_write_bytes_short _ _ l7]
  rw [read_write_bytes_short _ _ l8]
  rw [read_write_bytes_short_last _ l9]

/-- C3 witness: the round trip at a concrete populated state with a
negative uin. -/
theorem token_roundtrip_witness :
    -(2 ^ 63) ≤ (-5 : Int) ∧ (-5 : Int) < 2 ^ 63 ∧
    TokenState.shortFields
      ⟨-5, [1], [2, 2], [3], [4], [5], [6], [7], [8], [9]⟩ ∧
    load_token (gen_token
        ⟨-5, [1], [2, 2], [3], [4], [5], [6], [7], [8], [9]⟩) =
      ⟨-5, [1], [2, 2], [3], [4], [5], [6], [7], [8], [9]⟩ :=
  ⟨by decide, by decide, by decide,
    token_roundtrip ⟨-5, [1], [2, 2], [3], [4], [5], [6], [7], [8], [9]⟩
      (by decide) (by decide) (by decide)⟩

end RsQQ
